import Mathlib

/-!
Shallow embedding of the unfurl job planning and execution engine
(src/unfurl/job.py, src/unfurl/configurator.py) for checking the
natural-language specification against the code.

Conventions:
* Python `None` is `Option.none`; values that may be `None` are `Option`.
* Python runtime errors (AttributeError, TypeError, AssertionError) are
  `Except.error` with a message naming the error class.
* Components of the repository that are not under src/ (support.py,
  result.py, util.py, runtime.py, merge.py) are modelled from the spec and
  carry a doc comment saying so.
-/

namespace Unfurl

/-- Modelled from the spec: the `Status` enumeration from support.py
(not under src/): `unknown, ok, degraded, error, pending, notapplied,
notpresent, absent` (spec section 3). -/
inductive Status where
  | unknown
  | ok
  | degraded
  | error
  | pending
  | notapplied
  | notpresent
  | absent
deriving DecidableEq

/-- Plain Python data values as they flow through the engine: scalars,
sequences, mappings, plus a `Results` wrapper (result.py) and opaque
objects implementing the `ChangeAware` capability, identified by an id
whose `hasChanged(changeset)` answer is supplied externally. -/
inductive Value where
  | nil
  | bool (b : Bool)
  | int (n : Int)
  | str (s : String)
  | list (vs : List Value)
  | map (kvs : List (String × Value))
  | results (v : Value)
  | changeAware (id : Nat)

mutual

/-- Python equality (`==`) on plain data values, structural. -/
def Value.beq : Value → Value → Bool
  | .nil, .nil => true
  | .bool a, .bool b => a == b
  | .int a, .int b => a == b
  | .str a, .str b => a == b
  | .list as, .list bs => Value.beqList as bs
  | .map as, .map bs => Value.beqPairs as bs
  | .results a, .results b => Value.beq a b
  | .changeAware a, .changeAware b => a == b
  | _, _ => false

/-- Pointwise Python equality of two sequences. -/
def Value.beqList : List Value → List Value → Bool
  | [], [] => true
  | a :: as, b :: bs => Value.beq a b && Value.beqList as bs
  | _, _ => false

/-- Pointwise Python equality of two mappings (as association lists). -/
def Value.beqPairs : List (String × Value) → List (String × Value) → Bool
  | [], [] => true
  | (ka, va) :: as, (kb, vb) :: bs => ka == kb && Value.beq va vb && Value.beqPairs as bs
  | _, _ => false

end

/-- Python truthiness of a value: `None`, `False`, `0`, `""`, `[]`, the
empty mapping are falsy; every other value is truthy. -/
def Value.truthy : Value → Bool
  | .nil => false
  | .bool b => b
  | .int n => n != 0
  | .str s => s != ""
  | .list vs => !vs.isEmpty
  | .map kvs => !kvs.isEmpty
  | .results v => Value.truthy v
  | .changeAware _ => true

/-- Attribute values as seen through Python dynamic attribute access on a
`ConfiguratorResult`. -/
inductive PyVal where
  | nil
  | bool (b : Bool)
  | status (s : Status)
  | value (v : Value)

/-- Lift an optional Bool (a Python True/False/None slot) to `PyVal`. -/
def PyVal.ofOptBool : Option Bool → PyVal
  | Option.none => .nil
  | some b => .bool b

/-- Lift an optional Status to `PyVal`. -/
def PyVal.ofOptStatus : Option Status → PyVal
  | Option.none => .nil
  | some s => .status s

/-- Lift an optional Value to `PyVal`. -/
def PyVal.ofOptValue : Option Value → PyVal
  | Option.none => .nil
  | some v => .value v

/-- The `ConfiguratorResult` object exactly as its constructor leaves it
(configurator.py lines 192-210): the fields below are the only attributes
ever assigned; in particular the `status` constructor argument is stored
under the name `readyState`, and `self.exception` is assigned the
constant `None`, not the `exception` argument. -/
structure ConfiguratorResult where
  applied : Bool
  modified : Option Bool
  readyState : Option Status
  configChanged : Option Bool
  result : Option Value
  success : Option Bool
  outputs : Option Value
  exception : Option Value

/-- The constructor `ConfiguratorResult.__init__(applied, modified,
status=None, configChanged=None, result=None, success=None, outputs=None,
exception=None)`: every parameter is stored on the instance except that
`status` is stored as `readyState` and `exception` is discarded
(`self.exception = None`). -/
def ConfiguratorResult.init (applied : Bool) (modified : Option Bool)
    (status : Option Status) (configChanged : Option Bool)
    (result : Option Value) (success : Option Bool)
    (outputs : Option Value) (exception : Option Value) : ConfiguratorResult :=
  { applied := applied
    modified := modified
    readyState := status
    configChanged := configChanged
    result := result
    success := success
    outputs := outputs
    exception := Option.none }

/-- Python `getattr` on a `ConfiguratorResult`: the attributes assigned by
the constructor are `applied, modified, readyState, configChanged, result,
success, outputs, exception`; any other name raises `AttributeError`. -/
def ConfiguratorResult.getattr (r : ConfiguratorResult) (name : String) :
    Except String PyVal :=
  if name = "applied" then .ok (.bool r.applied)
  else if name = "modified" then .ok (PyVal.ofOptBool r.modified)
  else if name = "readyState" then .ok (PyVal.ofOptStatus r.readyState)
  else if name = "configChanged" then .ok (PyVal.ofOptBool r.configChanged)
  else if name = "result" then .ok (PyVal.ofOptValue r.result)
  else if name = "success" then .ok (PyVal.ofOptBool r.success)
  else if name = "outputs" then .ok (PyVal.ofOptValue r.outputs)
  else if name = "exception" then .ok (PyVal.ofOptValue r.exception)
  else .error ("AttributeError: ConfiguratorResult object has no attribute " ++ name)

/-- Extract the Status carried by a `PyVal`, as Python would when the
value assigned to `target.localStatus` is a Status or None. -/
def PyVal.toOptStatus : PyVal → Option Status
  | .status s => some s
  | _ => Option.none

/-- The slice of a target instance (runtime.py, not under src/) that
job.py touches: its local status and its change pointers. Modelled from
the spec, section 3, Instance. -/
structure Target where
  localStatus : Option Status
  lastChange : Option Nat
  lastConfigChange : Option Nat
  lastStateChange : Option Nat
deriving DecidableEq

/-- `ConfigTask._updateStatus(result)` (job.py lines 166-184), translated
line by line: the first test reads `result.status`, an attribute the
`ConfiguratorResult` constructor never assigns (it stores the status
argument under `readyState`), so the attribute lookup is fallible; the
remaining branches follow the source: when not successful, `error` if the
task is required else `degraded` when `result.modified` is truthy,
`unknown` when `result.modified` is None, otherwise leave the target
status unchanged. -/
def updateStatus (required : Bool) (target : Target)
    (result : ConfiguratorResult) : Except String Target := do
  let st ← result.getattr "status"
  match st with
  | PyVal.nil =>
    if (result.success.getD false) = false then
      if result.modified = some true then
        .ok { target with
              localStatus := some (if required then Status.error else Status.degraded) }
      else if result.modified = Option.none then
        .ok { target with localStatus := some Status.unknown }
      else
        .ok target
    else
      .ok target
  | st => .ok { target with localStatus := st.toOptStatus }

/-- A staged or committed set of attribute changes: a flat mapping from
attribute key to written value. Modelled from the spec, section 4.1
(the AttributeManager of support.py is not under src/). -/
abbrev Changes : Type := List (String × Value)

/-- Modelled from the spec: `mergeDicts` (merge.py, not under src/)
merges change snapshots in order, later writes winning per key
(spec section 4.1, invariant c). -/
def mergeDicts (a b : Changes) : Changes :=
  a.filter (fun kv => !(b.any (fun kv2 => kv2.1 == kv.1))) ++ b

/-- The Runner owns the monotonic change-id counter (job.py lines
693-698): `lastChangeId` is initialized from the manifest and only ever
mutated by `incrementChangeId`. -/
structure Runner where
  lastChangeId : Nat
deriving DecidableEq

/-- `Runner.incrementChangeId` (job.py lines 726-728): bump the counter
and return the new value. -/
def Runner.incrementChangeId (r : Runner) : Runner × Nat :=
  ({ lastChangeId := r.lastChangeId + 1 }, r.lastChangeId + 1)

/-- The slice of `Job` state relevant to change ids (job.py lines
315-331): a job draws its own `changeId` from the runner at creation and
records its parent job id. -/
structure Job where
  changeId : Nat
  parentId : Option Nat
deriving DecidableEq

/-- `Job.__init__` (job.py lines 315-331), restricted to the change-id
bookkeeping: `self.changeId = runner.incrementChangeId()` and
`self.parentId = parentJob.changeId if parentJob else None`. The source
comments here: `note: tasks that never run will all share this
changeid`. -/
def Job.init (r : Runner) (parentJob : Option Job) : Runner × Job :=
  let (r1, cid) := r.incrementChangeId
  (r1, { changeId := cid, parentId := parentJob.map (·.changeId) })

/-- The state of a `ConfigTask` (job.py lines 101-122): change-id fields,
the target, the attribute-manager staging area, the list of committed
change snapshots, result bookkeeping, and the list of task errors that
`UnfurlTaskError` (util.py, not under src/; modelled from the spec,
section 7: a task error is attached to the task) has attached. The
configurator generator is represented by whether it is currently bound
(`generatorOpen`). -/
structure ConfigTask where
  parentId : Nat
  changeId : Nat
  required : Bool
  target : Target
  generatorOpen : Bool
  staging : Changes
  changeList : List Changes
  resourceChanges : Changes
  outputs : Option Value
  result : Option ConfiguratorResult
  localStatus : Option Status
  errors : List String

/-- `ConfigTask.__init__` (job.py lines 101-122), restricted to the
fields above: `self.parentId = parentId or job.changeId` and
`self.changeId = self.parentId`; the staging area, change list and
result slots start empty. -/
def ConfigTask.init (job : Job) (parentId : Option Nat) (required : Bool)
    (target : Target) : ConfigTask :=
  let pid := parentId.getD job.changeId
  { parentId := pid
    changeId := pid
    required := required
    target := target
    generatorOpen := true
    staging := []
    changeList := []
    resourceChanges := []
    outputs := Option.none
    result := Option.none
    localStatus := Option.none
    errors := [] }

/-- `ConfigTask.commitChanges` (job.py lines 235-242): ask the attribute
manager for the staged changes (modelled from the spec, section 4.1:
`AttributeManager.commitChanges` snapshots the staging log and clears
it), append the snapshot to `self.changeList`, and return it. -/
def ConfigTask.commitChanges (t : ConfigTask) : ConfigTask × Changes :=
  let changes := t.staging
  ({ t with staging := [], changeList := t.changeList ++ [changes] }, changes)

/-- What one step of the configurator generator does, as data: the staged
attribute writes it leaves behind, and either the value it yields or the
exception it raises. -/
structure GeneratorStep where
  staged : Changes
  outcome : Except String Value

/-- `ConfigTask.send(change)` (job.py lines 152-161):
`try: result = self.generator.send(change) finally: self.commitChanges()`.
The generator step (its staged writes and its yield-or-raise outcome) is
supplied as data; whether the step yields or raises, the `finally` block
commits the staged changes, appending exactly one snapshot to
`changeList`, and then the result (or the exception) propagates. -/
def ConfigTask.send (t : ConfigTask) (step : GeneratorStep) :
    ConfigTask × Except String Value :=
  let t1 := { t with staging := t.staging ++ step.staged }
  let (t2, _) := t1.commitChanges
  (t2, step.outcome)

/-- `ConfigTask._updateLastChange(result)` (job.py lines 186-198): on the
first operation against the target, record `_lastConfigChange`; if the
operation modified the target or recorded attribute changes, record
`_lastStateChange`. -/
def ConfigTask.updateLastChange (t : ConfigTask) (result : ConfiguratorResult) :
    Target :=
  let tgt := t.target
  let tgt :=
    if tgt.lastChange = Option.none then
      { tgt with lastConfigChange := some t.changeId }
    else tgt
  if result.modified = some true ∨ !t.resourceChanges.isEmpty then
    { tgt with lastStateChange := some t.changeId }
  else tgt

/-- `ConfigTask.finished(result)` (job.py lines 200-233), translated in
source order: close the generator; store the outputs; draw a fresh
`changeId` from the runner (the comment in the source: set it only now so
that it is higher than nested tasks and jobs that ran); merge the
`changeList` snapshots in order into `resourceChanges`; then
`_updateStatus(result)` - whose first attribute access,
`result.status`, raises AttributeError (see `updateStatus`), at which
point the exception propagates with the change-id already assigned and
the remaining updates (last-change pointers, `self.result`,
`self.localStatus`) not applied. -/
def ConfigTask.finished (r : Runner) (t : ConfigTask) (result : ConfiguratorResult) :
    Runner × ConfigTask × Except String Unit :=
  let t := { t with generatorOpen := false }
  let t := { t with outputs := result.outputs }
  let (r, cid) := r.incrementChangeId
  let t := { t with changeId := cid }
  let t :=
    if !t.changeList.isEmpty then
      let accum := t.changeList.foldl mergeDicts []
      { t with resourceChanges := mergeDicts t.resourceChanges accum }
    else t
  match updateStatus t.required t.target result with
  | .error m => (r, t, .error m)
  | .ok tgt =>
    let t := { t with target := tgt }
    let t := { t with target := t.updateLastChange result }
    let t := { t with
               result := some result
               localStatus :=
                 some (if result.success = some true then Status.ok else Status.error) }
    (r, t, .ok ())

/-- An opaque JSON schema object as passed around by configurator.py;
schemas are only ever handed to the external `validateSchema`
(util.py), which the theorems take as a parameter. -/
structure Schema where
  id : Nat
deriving DecidableEq

/-- The variables of the `RefContext` that `Dependency.hasChanged` and
`Dependency.refresh` build (configurator.py lines 649-652):
`RefContext(config.target, dict(val=self.expected, changeId=changeId))`.
The target instance itself is abstracted into the external resolver. -/
structure RefCtx where
  changeId : Nat
  val : Option Value

/-- A registered runtime `Dependency` (configurator.py lines 602-623):
`expr`, optional `expected` baseline, optional `schema`, `name`,
`required`, `wantList`. -/
structure Dependency where
  expr : String
  expected : Option Value
  schema : Option Schema
  name : Option String
  required : Bool
  wantList : Bool

mutual

/-- `Dependency.hasValueChanged(value, changeset)` (configurator.py lines
634-647), in source branch order: unwrap a `Results` wrapper; for a
mapping, report changed when any entry changed; for a sequence or tuple,
when any element changed; for a `ChangeAware` value, ask its
`hasChanged(changeset)` capability (supplied externally as `ca`, the
changeset pre-applied); anything else is unchanged. -/
def Dependency.hasValueChanged (ca : Nat → Bool) : Value → Bool
  | .results v => Dependency.hasValueChanged ca v
  | .map kvs => Dependency.hasValueChangedPairs ca kvs
  | .list vs => Dependency.hasValueChangedList ca vs
  | .changeAware i => ca i
  | _ => false

/-- Walk of a sequence for `Dependency.hasValueChanged`. -/
def Dependency.hasValueChangedList (ca : Nat → Bool) : List Value → Bool
  | [] => false
  | v :: vs => Dependency.hasValueChanged ca v || Dependency.hasValueChangedList ca vs

/-- Walk of a mapping for `Dependency.hasValueChanged`. -/
def Dependency.hasValueChangedPairs (ca : Nat → Bool) : List (String × Value) → Bool
  | [] => false
  | kv :: kvs =>
    Dependency.hasValueChanged ca kv.2 || Dependency.hasValueChangedPairs ca kvs

end

/-- `Dependency.hasChanged(config)` (configurator.py lines 649-671),
translated in source order over the external collaborators
`resolveOne` (the expression evaluator `Ref(expr).resolveOne(context)`),
`validateSchema` (util.py), `mapValue` (eval.py) and `ca` (the
`ChangeAware.hasChanged(changeset)` capability of embedded values):
build the context from the config change-id and the stored baseline,
resolve the expression; if a schema is present and validation fails,
return `False` (the source comments `result is not as expected,
something changed` yet returns False here); with no schema, compare
against the mapped `expected` when set, else report changed when the
result is falsy; finally recursively walk the result value. -/
def Dependency.hasChanged (resolveOne : String → RefCtx → Value)
    (validateSchema : Value → Schema → Bool) (mapValue : Value → RefCtx → Value)
    (ca : Nat → Bool) (d : Dependency) (configChangeId : Nat) : Bool :=
  let context : RefCtx := { changeId := configChangeId, val := d.expected }
  let result := resolveOne d.expr context
  match d.schema with
  | some schema =>
    if !validateSchema result schema then
      false
    else
      Dependency.hasValueChanged ca result
  | Option.none =>
    match d.expected with
    | some e =>
      if !(Value.beq result (mapValue e context)) then
        true
      else
        Dependency.hasValueChanged ca result
    | Option.none =>
      if !result.truthy then
        true
      else
        Dependency.hasValueChanged ca result

/-- `Environment` (configurator.py lines 43-59): `vars`, `isolate`,
`passvars`, `addinputs`, with `self.vars = vars or {}`. -/
structure Environment where
  vars : Value
  isolate : Bool
  passvars : Option (List String)
  addinputs : Bool

/-- `Environment.__eq__` (configurator.py lines 75-83): structural over
the four fields. -/
def Environment.beq (a b : Environment) : Bool :=
  Value.beq a.vars b.vars && a.isolate == b.isolate
    && a.passvars == b.passvars && a.addinputs == b.addinputs

/-- The `environment` argument accepted by
`ConfigurationSpec.__init__`, which evaluates
`Environment(**(environment or {}))`: either `None`, or a keyword
mapping, or - as happens when `copy` passes the already-constructed
`self.environment` through - an `Environment` instance, which is not a
mapping and cannot be splatted with `**`. -/
inductive EnvParam where
  | noneParam
  | kwargs (vars : Option Value) (isolate : Bool) (passvars : Option (List String))
      (addinputs : Bool)
  | obj (e : Environment)

/-- Evaluate `Environment(**(environment or {}))` (configurator.py line
128 together with lines 44-59): `None` falls back to the empty keyword
mapping and the constructor defaults (`vars or {}` giving the empty
mapping, `isolate=False`, `passvars=None`, `addinputs=False`); a keyword
mapping fills the fields; splatting an `Environment` instance raises
`TypeError` because it is not a mapping. -/
def Environment.ofParam : EnvParam → Except String Environment
  | .noneParam =>
    .ok { vars := Value.map [], isolate := false, passvars := Option.none,
          addinputs := false }
  | .kwargs vars isolate passvars addinputs =>
    .ok { vars := (vars.filter Value.truthy).getD (Value.map [])
          isolate := isolate, passvars := passvars, addinputs := addinputs }
  | .obj _ =>
    .error "TypeError: argument after ** must be a mapping, not Environment"

/-- `ConfigurationSpec` (configurator.py lines 87-177): the fields stored
by `__init__`. -/
structure ConfigurationSpec where
  name : String
  operation : String
  className : String
  majorVersion : Int
  minorVersion : String
  workflow : String
  timeout : Option Nat
  environment : Environment
  inputs : Value
  inputSchema : Option Schema
  preConditions : Option Schema
  postConditions : Option Schema
  installer : Option String

/-- `ConfigurationSpec.__init__` (configurator.py lines 104-133):
`assert name and className` raises `AssertionError` when either is
missing or empty; `self.environment = Environment(**(environment or
{}))` builds the environment (fallible, see `Environment.ofParam`);
`self.inputs = inputs or {}`; the remaining arguments are stored as
given. -/
def ConfigurationSpec.init (name operation : String) (className : Option String)
    (majorVersion : Int) (minorVersion workflow : String) (timeout : Option Nat)
    (environment : EnvParam) (inputs : Option Value) (inputSchema : Option Schema)
    (preConditions postConditions : Option Schema) (installer : Option String) :
    Except String ConfigurationSpec :=
  if name = "" ∨ className = Option.none ∨ className = some "" then
    .error "AssertionError: missing required arguments"
  else do
    let env ← Environment.ofParam environment
    .ok { name := name
          operation := operation
          className := className.getD ""
          majorVersion := majorVersion
          minorVersion := minorVersion
          workflow := workflow
          timeout := timeout
          environment := env
          inputs := (inputs.filter Value.truthy).getD (Value.map [])
          inputSchema := inputSchema
          preConditions := preConditions
          postConditions := postConditions
          installer := installer }

/-- `ConfigurationSpec.copy(**mods)` with no modifications (configurator.py
lines 155-158): `args = self.__dict__.copy(); args.update(mods);
return ConfigurationSpec(**args)` - the stored attributes are passed
back to `__init__` verbatim; in particular the `environment` slot holds
the constructed `Environment` instance, not a keyword mapping. -/
def ConfigurationSpec.copy (s : ConfigurationSpec) : Except String ConfigurationSpec :=
  ConfigurationSpec.init s.name s.operation (some s.className) s.majorVersion
    s.minorVersion s.workflow s.timeout (EnvParam.obj s.environment) (some s.inputs)
    s.inputSchema s.preConditions s.postConditions s.installer

/-- `ConfigurationSpec.__eq__` (configurator.py lines 160-177), translated
comparison by comparison: note that the source compares
`self.inputSchema == self.inputSchema` (itself, not `other`), and never
compares `installer`. -/
def ConfigurationSpec.beq (a b : ConfigurationSpec) : Bool :=
  a.name == b.name
    && a.operation == b.operation
    && a.className == b.className
    && a.majorVersion == b.majorVersion
    && a.minorVersion == b.minorVersion
    && a.workflow == b.workflow
    && a.timeout == b.timeout
    && Environment.beq a.environment b.environment
    && Value.beq a.inputs b.inputs
    && (a.inputSchema == a.inputSchema)
    && a.preConditions == b.preConditions
    && a.postConditions == b.postConditions

/-- A working repository as seen by the pre-flight check of `Runner.run`:
only whether `repo.isDirty()` reports uncommitted files matters. -/
structure Repo where
  dirty : Bool
deriving DecidableEq

/-- The local environment of the manifest: `manifest.localEnv.getRepos()`
enumerates the repositories. -/
structure LocalEnv where
  repos : List Repo
deriving DecidableEq

/-- The slice of the manifest consulted by the pre-flight check of
`Runner.run`: an optional local environment holding repositories. -/
structure ManifestEnv where
  localEnv : Option LocalEnv
deriving DecidableEq

/-- The job options consulted by the pre-flight check of `Runner.run`
(job.py lines 50-76: `commit` defaults to True, `dirty` to False). -/
structure RunOptions where
  commit : Bool
  dirty : Bool
deriving DecidableEq

/-- `Runner.run(jobOptions)` (job.py lines 730-760), restricted to its
observable outcome: when `jobOptions.commit` and not `jobOptions.dirty`
and the manifest has a local environment, every repository is checked and
the run returns `None` at the first dirty one - before `createJob` is
reached, so no job is created and no task executed. Otherwise the job is
created via `createJob` (which draws the job change-id from the runner),
run, and returned; the running of the job and the manifest commit are
outside this slice. -/
def Runner.run (r : Runner) (m : ManifestEnv) (opts : RunOptions) :
    Runner × Option Job :=
  let dirtyAbort :=
    opts.commit && !opts.dirty &&
      (match m.localEnv with
       | some env => env.repos.any (·.dirty)
       | Option.none => false)
  if dirtyAbort then
    (r, Option.none)
  else
    let (r1, job) := Job.init r Option.none
    (r1, some job)

/-- `Job.MAX_NESTED_SUBTASKS` (job.py line 313). -/
def MAX_NESTED_SUBTASKS : Nat := 100

/-- `ConfiguratorResult(False, None, Status.error)` as built on the
configurator-failure paths of `Job.runTask` (job.py lines 667 and 690). -/
def crRunFailed : ConfiguratorResult :=
  ConfiguratorResult.init false Option.none (some Status.error) Option.none
    Option.none Option.none Option.none Option.none

/-- `ConfiguratorResult(False, None)` as built on the too-many-subtasks
path of `Job.runTask` (job.py line 671). -/
def crTooMany : ConfiguratorResult :=
  ConfiguratorResult.init false Option.none Option.none Option.none
    Option.none Option.none Option.none Option.none

/-- A successful final result as a configurator returns from
`task.done(True, True, Status.ok)` (configurator.py lines 388-389):
`ConfiguratorResult(True, modified, status, success=True)`. -/
def crSuccess : ConfiguratorResult :=
  ConfiguratorResult.init true (some true) (some Status.ok) Option.none
    Option.none (some true) Option.none Option.none

/-- The behaviour of a configurator generator as data: the sequence of
values its cooperative run yields. `yieldReq sub k` yields a
`TaskRequest` whose sub-task is driven by the script `sub`, then
continues as `k` once the completed sub-task is sent back in; `yieldRes`
yields a final `ConfiguratorResult`; `yieldBad` yields something that is
neither; `done` means the generator is exhausted (the next `send` raises
`StopIteration`). -/
inductive Script where
  | done : Script
  | yieldRes : ConfiguratorResult → Script → Script
  | yieldReq : Script → Script → Script
  | yieldBad : Script → Script

/-- `Job.runTask(task, depth)` (job.py lines 647-690), driving the
yield loop against a generator behaviour given as a `Script`. Translated
branch by branch from the source loop:
* exhausted generator - `task.send` raises `StopIteration`, caught by
  `except Exception`: record the task error `configurator.run failed`
  and return `task.finished(ConfiguratorResult(False, None,
  Status.error))`;
* a yielded `TaskRequest`: if `depth >= MAX_NESTED_SUBTASKS`, record the
  task error `too many subtasks spawned` and set `change =
  task.finished(ConfiguratorResult(False, None))`; any exception from
  `finished` propagates out of `runTask`; if `finished` were to return
  normally the loop would call `task.send` again on the now-closed
  (`None`) generator, raising, which the `except` clause turns into the
  `configurator.run failed` path; below the limit, create the sub-task
  with `createTask(result.configSpec, result.target, self.changeId)` and
  recurse at `depth + 1`, propagating an escaping exception, else feeding
  the completed sub-task back in and continuing;
* a yielded `ConfiguratorResult`: return `task.finished(result)`;
* anything else: record the task error `unexpected result from
  configurator` and return `task.finished(ConfiguratorResult(False,
  None, Status.error))`.
The task errors recorded by `UnfurlTaskError` are threaded as `log`
(modelled from the spec, section 7: task errors are attached to the
task, surviving the exception). `cantRunTask` and `addWork` involve only
external validators and bookkeeping and are elided; the scripts model
runnable tasks. -/
def runTaskLoop (job : Job) (depth : Nat) (script : Script) (r : Runner)
    (t : ConfigTask) (log : List String) :
    List String × Runner × Except String ConfigTask :=
  match script with
  | .done =>
    let log := log ++ ["configurator.run failed"]
    let (r, t, e) := t.finished r crRunFailed
    (log, r, match e with | .error m => .error m | .ok _ => .ok t)
  | .yieldRes result _ =>
    let (r, t, e) := t.finished r result
    (log, r, match e with | .error m => .error m | .ok _ => .ok t)
  | .yieldBad _ =>
    let log := log ++ ["unexpected result from configurator"]
    let (r, t, e) := t.finished r crRunFailed
    (log, r, match e with | .error m => .error m | .ok _ => .ok t)
  | .yieldReq sub rest =>
    if depth ≥ MAX_NESTED_SUBTASKS then
      let log := log ++ ["too many subtasks spawned"]
      let (r, t1, e) := t.finished r crTooMany
      match e with
      | .error m => (log, r, .error m)
      | .ok _ =>
        let log := log ++ ["configurator.run failed"]
        let (r, t2, e2) := t1.finished r crRunFailed
        (log, r, match e2 with | .error m => .error m | .ok _ => .ok t2)
    else
      let subTask := ConfigTask.init job (some job.changeId) false t.target
      match runTaskLoop job (depth + 1) sub r subTask log with
      | (log, r, .error m) => (log, r, .error m)
      | (log, r, .ok _) => runTaskLoop job depth rest r t log

/-- A chain of nested task requests: `nestedScript n` is the behaviour of
a configurator that emits one `TaskRequest` whose sub-task emits the
next, `n` requests deep, the innermost sub-task finishing with a
successful result; after its sub-task completes, each configurator also
finishes successfully. -/
def nestedScript : Nat → Script
  | 0 => .yieldRes crSuccess .done
  | n + 1 => .yieldReq (nestedScript n) (.yieldRes crSuccess .done)

/-! Concrete inputs shared by the theorems below. -/

/-- A fresh target instance: no status, never touched. -/
def target0 : Target :=
  { localStatus := Option.none, lastChange := Option.none,
    lastConfigChange := Option.none, lastStateChange := Option.none }

/-- The error message of the attribute lookup `result.status`. -/
def statusAttrErr : String :=
  "AttributeError: ConfiguratorResult object has no attribute status"

/-- The `Environment` produced from an absent `environment` argument. -/
def envDefault : Environment :=
  { vars := Value.map [], isolate := false, passvars := Option.none,
    addinputs := false }

/-- A representative fully-populated configuration spec. -/
def specBase : ConfigurationSpec :=
  { name := "base", operation := "configure", className := "TestConfigurator",
    majorVersion := 0, minorVersion := "", workflow := "deploy",
    timeout := Option.none, environment := envDefault, inputs := Value.map [],
    inputSchema := Option.none, preConditions := Option.none,
    postConditions := Option.none, installer := Option.none }

/-- `specBase` with a different `inputSchema` and a different
`installer`, every other field unchanged. -/
def specSchemaInstaller : ConfigurationSpec :=
  { specBase with inputSchema := some { id := 7 }, installer := some "installerX" }

/-- A dependency registered with a schema and no expected baseline. -/
def depSchema : Dependency :=
  { expr := "::nodeA::addr", expected := Option.none, schema := some { id := 0 },
    name := Option.none, required := false, wantList := false }

/-!  Theorems settling the claims. -/

/-- Auxiliary: the change-id that `ConfigTask.finished` assigns is the
increment of the runner counter, on every path (the assignment happens
before `_updateStatus` runs), and the runner counter advances by exactly
that increment. -/
theorem finished_changeId (r : Runner) (t : ConfigTask) (res : ConfiguratorResult) :
    ((ConfigTask.finished r t res).2.1).changeId = r.lastChangeId + 1
      ∧ ((ConfigTask.finished r t res).1).lastChangeId = r.lastChangeId + 1 := by
  unfold ConfigTask.finished
  constructor
  · simp only [Runner.incrementChangeId, updateStatus, ConfiguratorResult.getattr]
    split <;> simp [apply_ite ConfigTask.changeId]
  · simp only [Runner.incrementChangeId, updateStatus, ConfiguratorResult.getattr]
    split <;> rfl

/-- C1: `ConfigTask._updateStatus(result)` never performs the update the
spec describes: its first test reads `result.status`, but the
`ConfiguratorResult` constructor stores the status argument under
`readyState` and never assigns an attribute named `status`, so the
attribute access raises `AttributeError` for every result, successful or
not; the branches assigning `error`, `degraded` or `unknown` are
unreachable. -/
theorem claim_C1_updateStatus_raises (required : Bool) (target : Target)
    (result : ConfiguratorResult) :
    updateStatus required target result = Except.error statusAttrErr := rfl

/-- C2: with a schema present and schema validation failing on the
resolved value, `Dependency.hasChanged` returns `False` (dependency
unchanged) - here even though the resolved value also contains a
`ChangeAware` element that reports changed - where the claim requires
`True`. Evaluated at a concrete dependency, with the external resolver
returning a `ChangeAware` value, the external validator rejecting every
value, and the capability reporting changed. -/
theorem claim_C2_schema_failure_unchanged :
    Dependency.hasChanged (fun _ _ => Value.changeAware 0) (fun _ _ => false)
      (fun v _ => v) (fun _ => true) depSchema 1 = false := rfl

/-- C3 counterexample: a task freshly created by a job (as every task is
created, including those that are filtered out and never run) has
`changeId = parentId or job.changeId`, i.e. exactly its job change-id,
not a strictly greater one: with a runner counter at 0, the job draws
change-id 1 and its new task also carries change-id 1. -/
theorem claim_C3_counterexample :
    ¬ ((ConfigTask.init (Job.init { lastChangeId := 0 } Option.none).2 Option.none
          false target0).changeId
        > (Job.init { lastChangeId := 0 } Option.none).2.changeId) := by
  decide

/-- C3 amended: every task finalized via `ConfigTask.finished` has a
change-id strictly greater than its job change-id, provided the runner
counter is at least the job change-id - which holds throughout a run
because the job drew its change-id from this counter and
`incrementChangeId` only ever increases it. -/
theorem claim_C3_finished_changeId_above_job (r : Runner) (job : Job)
    (t : ConfigTask) (res : ConfiguratorResult)
    (h : job.changeId ≤ r.lastChangeId) :
    ((ConfigTask.finished r t res).2.1).changeId > job.changeId := by
  have h2 := (finished_changeId r t res).1
  omega

/-- Witness for the amended C3 at concrete inputs: a runner counter at 5,
a job with change-id 2, a fresh task finalized with a failed result. -/
theorem claim_C3_witness :
    (2 : Nat) ≤ 5
      ∧ ((ConfigTask.finished { lastChangeId := 5 }
            (ConfigTask.init { changeId := 2, parentId := Option.none } Option.none
              false target0) crTooMany).2.1).changeId > 2 :=
  ⟨by decide,
   claim_C3_finished_changeId_above_job { lastChangeId := 5 }
     { changeId := 2, parentId := Option.none }
     (ConfigTask.init { changeId := 2, parentId := Option.none } Option.none
       false target0) crTooMany (by decide)⟩

/-- C4: change-ids issued by the runner are strictly monotonic and every
finalization draws a fresh one: if a task is finalized and a second task
is finalized afterwards - the runner counter in between never having
decreased, as `incrementChangeId` is the only mutation of the counter -
the first change-id is strictly below the second. -/
theorem claim_C4_finished_changeIds_increase (r rMid : Runner)
    (t1 t2 : ConfigTask) (res1 res2 : ConfiguratorResult)
    (h : ((ConfigTask.finished r t1 res1).1).lastChangeId ≤ rMid.lastChangeId) :
    ((ConfigTask.finished r t1 res1).2.1).changeId
      < ((ConfigTask.finished rMid t2 res2).2.1).changeId := by
  have h1 := finished_changeId r t1 res1
  have h2 := (finished_changeId rMid t2 res2).1
  omega

/-- Witness for C4 at concrete inputs: two tasks finalized back to back
starting from a runner counter at 0, the second starting from the very
runner state the first finalization returned. -/
theorem claim_C4_witness :
    ((ConfigTask.finished { lastChangeId := 0 }
        (ConfigTask.init { changeId := 0, parentId := Option.none } Option.none
          false target0) crSuccess).1).lastChangeId ≤ 1
      ∧ ((ConfigTask.finished { lastChangeId := 0 }
            (ConfigTask.init { changeId := 0, parentId := Option.none } Option.none
              false target0) crSuccess).2.1).changeId
          < ((ConfigTask.finished { lastChangeId := 1 }
                (ConfigTask.init { changeId := 0, parentId := Option.none } Option.none
                  false target0) crSuccess).2.1).changeId :=
  ⟨by decide,
   claim_C4_finished_changeIds_increase { lastChangeId := 0 } { lastChangeId := 1 }
     (ConfigTask.init { changeId := 0, parentId := Option.none } Option.none
       false target0)
     (ConfigTask.init { changeId := 0, parentId := Option.none } Option.none
       false target0) crSuccess crSuccess (by decide)⟩

/-- C5: `ConfigurationSpec` equality is not structural across all fields:
two specs that differ in `inputSchema` and in `installer` - and agree
everywhere else - compare equal, because `__eq__` compares
`self.inputSchema` against itself and never inspects `installer`. -/
theorem claim_C5_eq_ignores_inputSchema_installer :
    ConfigurationSpec.beq specBase specSchemaInstaller = true
      ∧ specBase.inputSchema ≠ specSchemaInstaller.inputSchema
      ∧ specBase.installer ≠ specSchemaInstaller.installer :=
  ⟨rfl, by decide, by decide⟩

/-- C6: `ConfigurationSpec.copy()` with no modifications never succeeds
for any spec: `copy` passes the stored `Environment` instance back
through `__init__`, which evaluates `Environment(**(environment or {}))`
and raises `TypeError`, since an `Environment` instance is not a
mapping (and if the `assert` on `name and className` fires first the
call fails with `AssertionError` instead). -/
theorem claim_C6_copy_never_succeeds (s s' : ConfigurationSpec) :
    ConfigurationSpec.copy s ≠ Except.ok s' := by
  unfold ConfigurationSpec.copy ConfigurationSpec.init
  split
  · simp
  · intro h
    exact Except.noConfusion h

/-- C7: evaluating the cooperative task driver on a chain of 101 nested
`TaskRequest`s: the 101st request (emitted at nesting depth 100) is
refused with the task error `too many subtasks spawned` - but the parent
does not continue: finalizing the emitting task runs `_updateStatus`,
whose `result.status` access raises `AttributeError`, which propagates
through every parent frame of `runTask` and out of `Job.run`, aborting
the whole job. A chain of 100 nested requests never triggers the depth
error. -/
theorem claim_C7_nested_limit :
    (runTaskLoop { changeId := 1, parentId := Option.none } 0 (nestedScript 101)
        { lastChangeId := 1 }
        (ConfigTask.init { changeId := 1, parentId := Option.none } Option.none
          false target0) []).1 = ["too many subtasks spawned"]
      ∧ (runTaskLoop { changeId := 1, parentId := Option.none } 0 (nestedScript 101)
            { lastChangeId := 1 }
            (ConfigTask.init { changeId := 1, parentId := Option.none } Option.none
              false target0) []).2.2 = Except.error statusAttrErr
      ∧ (runTaskLoop { changeId := 1, parentId := Option.none } 0 (nestedScript 100)
            { lastChangeId := 1 }
            (ConfigTask.init { changeId := 1, parentId := Option.none } Option.none
              false target0) []).1 = [] :=
  ⟨rfl, rfl, rfl⟩

/-- C8: with `commit` set, `dirty` unset, and the manifest local
environment reporting a dirty repository, `Runner.run` returns `None`
with the runner state untouched - in particular before `createJob` is
reached, so no job is created and no task executed. -/
theorem claim_C8_dirty_repo_aborts (r : Runner) (m : ManifestEnv)
    (opts : RunOptions) (env : LocalEnv)
    (h1 : opts.commit = true) (h2 : opts.dirty = false)
    (h3 : m.localEnv = some env)
    (h4 : env.repos.any (fun repo => repo.dirty) = true) :
    Runner.run r m opts = (r, Option.none) := by
  simp [Runner.run, h1, h2, h3, h4]

/-- Witness for C8 at concrete inputs: default options (`commit=True`,
`dirty=False`) and a manifest with a single dirty repository. -/
theorem claim_C8_witness :
    (⟨true, false⟩ : RunOptions).commit = true
      ∧ (⟨true, false⟩ : RunOptions).dirty = false
      ∧ (⟨some ⟨[⟨true⟩]⟩⟩ : ManifestEnv).localEnv = some ⟨[⟨true⟩]⟩
      ∧ (⟨[⟨true⟩]⟩ : LocalEnv).repos.any (fun repo => repo.dirty) = true
      ∧ Runner.run { lastChangeId := 0 } ⟨some ⟨[⟨true⟩]⟩⟩ ⟨true, false⟩
          = ({ lastChangeId := 0 }, Option.none) :=
  ⟨rfl, rfl, rfl, rfl,
   claim_C8_dirty_repo_aborts { lastChangeId := 0 } ⟨some ⟨[⟨true⟩]⟩⟩
     ⟨true, false⟩ ⟨[⟨true⟩]⟩ rfl rfl rfl rfl⟩

/-- C9: every cooperative step commits its staged attribute changes:
whatever the generator step does - yield a value or raise an exception -
`ConfigTask.send` appends exactly one committed snapshot (the staged
writes of the step) to the task change list, clears the staging area,
and passes the step outcome through. -/
theorem claim_C9_send_commits_each_step (t : ConfigTask) (step : GeneratorStep) :
    ((ConfigTask.send t step).1).changeList
        = t.changeList ++ [t.staging ++ step.staged]
      ∧ ((ConfigTask.send t step).1).staging = []
      ∧ (ConfigTask.send t step).2 = step.outcome :=
  ⟨rfl, rfl, rfl⟩

/-- C10: the `exception` argument handed to the `ConfiguratorResult`
constructor is never stored: the constructor assigns the constant `None`
to `self.exception`, whatever was passed. -/
theorem claim_C10_exception_discarded (applied : Bool) (modified : Option Bool)
    (status : Option Status) (configChanged : Option Bool) (result : Option Value)
    (success : Option Bool) (outputs : Option Value) (exc : Option Value) :
    (ConfiguratorResult.init applied modified status configChanged result success
        outputs exc).exception = Option.none := rfl

end Unfurl
